import Mathlib

/-!
Shallow embedding of `bucky/cluster.go` (cluster topology discovery and
consistency checking) from the buckytools repository, together with proofs
about its behaviour.

Go strings are modelled by Lean `String`; Go `nil` pointers by `Option`;
the process-wide globals `Cluster` and `HostPort` by an explicit
`ClusterState` record threaded through `GetClusterConfig`; the external
prober `GetSingleHashRing` by a function parameter; and a Go nil-pointer
dereference (panic) by a distinguished `crash` outcome.
-/

set_option autoImplicit false

namespace Buckytools

/-- One daemon's self-reported ring snapshot (`JSONRingType` from the
buckytools package): algorithm name, replica count, ordered node tokens. -/
structure JSONRingType where
  Algo : String
  Replicas : Int
  Nodes : List String
  deriving Repr, DecidableEq

/-- A hash-ring member (`hashing.Node`): hostname plus instance label. -/
structure Node where
  Server : String
  Inst : String
  deriving Repr, DecidableEq

/-- Minimal model of the external `hashing.HashRing` interface value: which
constructor built it, the replica argument it was given, and the nodes added
via `AddNode`, in order. -/
structure HashRing where
  RingAlgo : String
  RingReplicas : Int
  RingNodes : List Node
  deriving Repr, DecidableEq

/-- `hashing.NewCarbonHashRing()`. -/
def NewCarbonHashRing : HashRing :=
  { RingAlgo := "carbon", RingReplicas := 0, RingNodes := [] }

/-- `hashing.NewJumpHashRing(replicas)`. -/
def NewJumpHashRing (replicas : Int) : HashRing :=
  { RingAlgo := "jump_fnv1a", RingReplicas := replicas, RingNodes := [] }

/-- `HashRing.AddNode`: record the node at the end of the added-node list. -/
def HashRing.AddNode (h : HashRing) (n : Node) : HashRing :=
  { h with RingNodes := h.RingNodes ++ [n] }

/-- The cached cluster configuration (`ClusterConfig` in cluster.go).
`Hash = none` models a nil `hashing.HashRing` interface value, which is the
zero value a freshly allocated `ClusterConfig` carries before the algorithm
switch assigns it. -/
structure ClusterConfig where
  Port : String
  Servers : List String
  Hash : Option HashRing
  Healthy : Bool
  deriving Repr, DecidableEq

/-- The process-wide mutable globals that `GetClusterConfig` reads and
writes: the cached `Cluster` pointer (nil modelled as `none`) and the
package-level `HostPort` string that line 58 of cluster.go actually parses. -/
structure ClusterState where
  Cluster : Option ClusterConfig
  HostPort : String
  deriving Repr, DecidableEq

/-- Outcome of a call to `GetClusterConfig`: a returned config, a returned
error, or a runtime panic (nil-pointer dereference). -/
inductive GoResult where
  | ok (c : ClusterConfig)
  | err (msg : String)
  | crash
  deriving Repr, DecidableEq

/-- Go's `strings.Split(s, ":")` on the character list of `s`: split at every
colon, keeping empty segments; the result is always nonempty. -/
def splitOnColon : List Char → List (List Char)
  | [] => [[]]
  | c :: rest =>
    let r := splitOnColon rest
    if c = ':' then [] :: r
    else (c :: r.headD []) :: r.tail

/-- Go's `strings.Split(v, ":")` at the `String` level. -/
def stringsSplitColon (s : String) : List String :=
  (splitOnColon s.data).map String.mk

/-- The per-token body of the node loop in `GetClusterConfig` (cluster.go
lines 77-85): `fields := strings.Split(v, ":")`, pad `fields` with `""` when
it has fewer than two entries, then read `fields[0]` and `fields[1]`. -/
def parseNode (v : String) : Node :=
  let fields := stringsSplitColon v
  let fields := if fields.length < 2 then fields ++ [""] else fields
  { Server := fields.getD 0 "", Inst := fields.getD 1 "" }

/-- Model of `net.SplitHostPort` restricted to the plain `host:port` shapes
this code feeds it (no IPv6 brackets): exactly one colon separates host from
port, anything else is an error. -/
def splitHostPort (s : String) : Except String (String × String) :=
  match stringsSplitColon s with
  | [h, p] => Except.ok (h, p)
  | _ => Except.error ("address " ++ s ++ ": invalid host:port")

/-- The algorithm switch of cluster.go lines 67-75: `"carbon"` and
`"jump_fnv1a"` build a ring, anything else is the error path. -/
def buildHash (algo : String) (replicas : Int) : Option HashRing :=
  if algo = "carbon" then some NewCarbonHashRing
  else if algo = "jump_fnv1a" then some (NewJumpHashRing replicas)
  else none

/-- The inner index loop of `isHealthy` (cluster.go lines 137-142): scan the
indices of `v.Nodes` and report whether any position disagrees with
`master.Nodes`. The surrounding branch guarantees the two lists have equal
length, so the `getD` defaults are never consulted on reachable inputs. -/
def nodesDiffer (vNodes mNodes : List String) : Bool :=
  (List.range vNodes.length).any fun j =>
    decide (vNodes.getD j "" ≠ mNodes.getD j "")

/-- The peer loop of `isHealthy` (cluster.go lines 126-143). Each element of
`ring` is a `*JSONRingType`; a `none` element is a nil pointer, and reading
`v.Algo` from it is a nil dereference, modelled as the `none` result. -/
def isHealthyLoop (master : JSONRingType) : List (Option JSONRingType) → Option Bool
  | [] => some true
  | none :: _ => none
  | some v :: rest =>
    if master.Algo ≠ v.Algo then some false
    else if v.Nodes.length ≠ master.Nodes.length then some false
    else if nodesDiffer v.Nodes master.Nodes then some false
    else isHealthyLoop master rest

/-- `isHealthy` (cluster.go lines 108-146): the leading count check compares
the master's node count with the number of collected ring snapshots, then
each snapshot is compared with the master. `some b` is a normal return of
`b`; `none` is a panic on a nil snapshot. -/
def isHealthy (master : JSONRingType) (ring : List (Option JSONRingType)) : Option Bool :=
  if master.Nodes.length ≠ ring.length then some false
  else isHealthyLoop master ring

/-- `GetClusterConfig` (cluster.go lines 47-103), as a function of the
external prober `probe` (`GetSingleHashRing`), the process globals `st`,
and the `hostport` argument. Besides the new global state and the Go return
value it also yields the list of addresses probed, in order, so that
"performs no further probing" is expressible.

Faithful to the source, including its defects: the cache object is
allocated and published before the algorithm switch (so the unknown-
algorithm path leaves a partial object cached); line 58 parses the global
`HostPort`, not the `hostport` argument; and a failed peer probe appends a
nil snapshot to `members`, which `isHealthy` then dereferences. -/
def GetClusterConfig (probe : String → Except String JSONRingType)
    (st : ClusterState) (hostport : String) :
    ClusterState × GoResult × List String :=
  match st.Cluster with
  | some c => (st, GoResult.ok c, [])
  | none =>
    match probe hostport with
    | Except.error e => (st, GoResult.err e, [hostport])
    | Except.ok master =>
      match splitHostPort st.HostPort with
      | Except.error e => (st, GoResult.err e, [hostport])
      | Except.ok (server, port) =>
        let emptyCfg : ClusterConfig :=
          { Port := port, Servers := [], Hash := none, Healthy := false }
        match buildHash master.Algo master.Replicas with
        | none =>
          ({ st with Cluster := some emptyCfg },
           GoResult.err ("Unknown consistent hash algorithm: " ++ master.Algo),
           [hostport])
        | some hash0 =>
          let servers := master.Nodes.map fun v => (parseNode v).Server
          let hash := master.Nodes.foldl (fun h v => h.AddNode (parseNode v)) hash0
          let peerAddrs :=
            (servers.filter fun srv => decide (srv ≠ server)).map
              fun srv => srv ++ ":" ++ port
          let members := peerAddrs.map fun host => (probe host).toOption
          let crashCfg : ClusterConfig :=
            { Port := port, Servers := servers, Hash := some hash, Healthy := false }
          match isHealthy master members with
          | none =>
            ({ st with Cluster := some crashCfg },
             GoResult.crash, hostport :: peerAddrs)
          | some h =>
            let cfg : ClusterConfig :=
              { Port := port, Servers := servers, Hash := some hash, Healthy := h }
            ({ st with Cluster := some cfg }, GoResult.ok cfg, hostport :: peerAddrs)

/-! ### Auxiliary definitions used to state the claims -/

/-- A snapshot with its replica count erased. Two snapshots agree on
everything except their `Replicas` field exactly when their images under
`stripReplicas` are equal. -/
def stripReplicas (r : JSONRingType) : JSONRingType :=
  { r with Replicas := 0 }

/-- Characters of a token strictly before its first colon (the whole token
when it has no colon). -/
def beforeColon : List Char → List Char
  | [] => []
  | c :: rest => if c = ':' then [] else c :: beforeColon rest

/-- Characters strictly after the first colon; `none` when no colon occurs. -/
def pastColon : List Char → Option (List Char)
  | [] => none
  | c :: rest => if c = ':' then some rest else pastColon rest

/-- The amended reading of node parsing: the hostname is the part before the
first colon, and the instance is the segment between the first and the
second colon (empty when the token has no colon). -/
def parseNodeAmended (v : String) : Node :=
  { Server := String.mk (beforeColon v.data),
    Inst := String.mk (beforeColon ((pastColon v.data).getD [])) }

/-! ### Concrete fixtures for closed theorems and witnesses -/

/-- A two-node carbon snapshot. -/
def snapCarbon2 : JSONRingType :=
  { Algo := "carbon", Replicas := 0, Nodes := ["a:0", "b:0"] }

/-- A three-node carbon snapshot. -/
def snapCarbon3 : JSONRingType :=
  { Algo := "carbon", Replicas := 0, Nodes := ["a:0", "b:0", "c:0"] }

/-- The two-node carbon snapshot with the node order swapped. -/
def snapSwapped2 : JSONRingType :=
  { Algo := "carbon", Replicas := 0, Nodes := ["b:0", "a:0"] }

/-- A prober for which every daemon reports `snapCarbon2`. -/
def probeCarbon2 : String → Except String JSONRingType :=
  fun _ => Except.ok snapCarbon2

/-- A prober for which every daemon reports `snapCarbon3`. -/
def probeCarbon3 : String → Except String JSONRingType :=
  fun _ => Except.ok snapCarbon3

/-- A prober whose seed reports an unrecognized algorithm. -/
def probeBogus : String → Except String JSONRingType :=
  fun _ => Except.ok { Algo := "bogus", Replicas := 1, Nodes := ["a:0"] }

/-- A prober for which daemon a:2000 is unreachable and every other daemon
reports `snapCarbon2`. -/
def probeFlaky : String → Except String JSONRingType :=
  fun h => if h = "a:2000" then Except.error "connection refused"
           else Except.ok snapCarbon2

/-- A prober for which every daemon is unreachable. -/
def probeDown : String → Except String JSONRingType :=
  fun _ => Except.error "connection refused"

/-- The carbon ring populated from `snapCarbon2`. -/
def carbonHash2 : HashRing :=
  { RingAlgo := "carbon", RingReplicas := 0,
    RingNodes := [{ Server := "a", Inst := "0" }, { Server := "b", Inst := "0" }] }

/-- The carbon ring populated from `snapCarbon3`. -/
def carbonHash3 : HashRing :=
  { RingAlgo := "carbon", RingReplicas := 0,
    RingNodes := [{ Server := "a", Inst := "0" }, { Server := "b", Inst := "0" },
                  { Server := "c", Inst := "0" }] }

/-- The healthy config published for `snapCarbon3` when all three nodes are
probed as peers. -/
def cfgHealthy3 : ClusterConfig :=
  { Port := "2000", Servers := ["a", "b", "c"], Hash := some carbonHash3, Healthy := true }

/-- The config published when the stale global address b:3000 is parsed in
place of the supplied seed a:2000. -/
def cfgStale : ClusterConfig :=
  { Port := "3000", Servers := ["a", "b"], Hash := some carbonHash2, Healthy := false }

/-! ### Claim theorems -/

/-- C1: the spec demands that a seed reporting an algorithm other than
"carbon" or "jump_fnv1a" abort discovery with an error naming the
algorithm, leaving the process-wide cache untouched. The code does return
the naming error, but it has already published a partially-populated
`ClusterConfig` (port set, no servers, nil hash ring) to the global cache,
so a subsequent call would short-circuit on that partial object. This
theorem evaluates the code at the failing input and exhibits the poisoned
cache. -/
theorem C1_bogus_algorithm_poisons_cache :
    GetClusterConfig probeBogus { Cluster := none, HostPort := "a:2000" } "a:2000" =
      ({ Cluster := some { Port := "2000", Servers := [], Hash := none, Healthy := false },
         HostPort := "a:2000" },
       GoResult.err "Unknown consistent hash algorithm: bogus", ["a:2000"]) := by
  decide

/-- C2: the spec demands that a failed peer probe be modeled as an explicit
"unknown" snapshot which makes the verdict unhealthy without any field of a
missing snapshot being dereferenced. The code instead appends the nil
snapshot to `members`, and `isHealthy` dereferences its `Algo` field: with
seed s:2000 reporting nodes a and b and daemon a:2000 unreachable, the node
count (2) matches the member count (2), the loop reaches the nil member,
and the run panics instead of returning an unhealthy config. -/
theorem C2_nil_peer_snapshot_crashes :
    (GetClusterConfig probeFlaky { Cluster := none, HostPort := "s:2000" } "s:2000").2.1 =
      GoResult.crash ∧
    isHealthy snapCarbon2 [none, some snapCarbon2] = none := by
  decide

/-- C4: the claim says the (server, port) pair used for peer addresses and
for recognizing the seed's own hostname is parsed from the supplied
`hostport` argument. The code parses the package-level global `HostPort`
instead: called with seed a:2000 while the global holds b:3000, discovery
builds peer addresses with port 3000, skips node b (the stale host) instead
of the actual seed a, and re-probes the seed at a:3000. -/
theorem C4_parses_stale_global_address :
    GetClusterConfig probeCarbon2 { Cluster := none, HostPort := "b:3000" } "a:2000" =
      ({ Cluster := some cfgStale, HostPort := "b:3000" },
       GoResult.ok cfgStale, ["a:2000", "a:3000"]) := by
  decide

/-- C10: with no collected peer snapshots, `isHealthy` returns true exactly
when the reference snapshot's node list is empty, because its leading check
compares the reference's node count against the number of peer snapshots;
in particular a single-daemon cluster (one node, zero peers) is always
judged unhealthy. -/
theorem C10_empty_peers_healthy_iff_no_nodes (master : JSONRingType) :
    isHealthy master [] = some true ↔ master.Nodes = [] := by
  cases h : master.Nodes <;> simp [isHealthy, isHealthyLoop, h]

/-! ### Lemmas about colon splitting -/

theorem splitOnColon_ne_nil (l : List Char) : splitOnColon l ≠ [] := by
  cases l with
  | nil => simp [splitOnColon]
  | cons c rest =>
    simp only [splitOnColon]
    split <;> simp

theorem headD_splitOnColon (l : List Char) :
    (splitOnColon l).headD [] = beforeColon l := by
  induction l with
  | nil => rfl
  | cons c rest ih =>
    simp only [splitOnColon, beforeColon]
    split
    · rfl
    · rw [List.headD_cons, ih]

theorem splitOnColon_of_pastColon_none (l : List Char) (h : pastColon l = none) :
    splitOnColon l = [l] := by
  induction l with
  | nil => rfl
  | cons c rest ih =>
    by_cases hc : c = ':'
    · simp [pastColon, hc] at h
    · simp only [pastColon, hc, if_neg, if_false] at h
      simp [splitOnColon, hc, ih h]

theorem beforeColon_of_pastColon_none (l : List Char) (h : pastColon l = none) :
    beforeColon l = l := by
  induction l with
  | nil => rfl
  | cons c rest ih =>
    by_cases hc : c = ':'
    · simp [pastColon, hc] at h
    · simp only [pastColon, hc, if_neg, if_false] at h
      simp [beforeColon, hc, ih h]

theorem splitOnColon_of_pastColon_some (l m : List Char) (h : pastColon l = some m) :
    splitOnColon l = beforeColon l :: splitOnColon m := by
  induction l with
  | nil => simp [pastColon] at h
  | cons c rest ih =>
    by_cases hc : c = ':'
    · simp only [pastColon, hc, if_pos, Option.some.injEq] at h
      subst h
      simp [splitOnColon, beforeColon, hc]
    · simp only [pastColon, hc, if_neg, if_false] at h
      simp [splitOnColon, beforeColon, hc, ih h, headD_splitOnColon]

/-- C9 counterexample: the claim says the instance of `name:rest` is
everything after the first colon, so "a:b:c" would parse to instance "b:c";
the code splits on every colon and reads only `fields[1]`, yielding
instance "b". -/
theorem C9_counterexample_second_colon :
    parseNode "a:b:c" = { Server := "a", Inst := "b" } ∧ ("b" : String) ≠ "b:c" := by
  decide

/-- C9 (amended): parsing splits on colons; the hostname is the part before
the first colon, and the instance is the segment between the first and the
second colon — for tokens with at most one colon this coincides with the
original claim, and a colon-free token yields an empty instance. In
particular "host1" parses to Node{host1, ""} and "host1:5" to
Node{host1, "5"}. -/
theorem C9_parse_splits_at_colons :
    (∀ v : String, parseNode v = parseNodeAmended v) ∧
      parseNode "host1" = { Server := "host1", Inst := "" } ∧
      parseNode "host1:5" = { Server := "host1", Inst := "5" } := by
  refine ⟨?_, by decide, by decide⟩
  intro v
  unfold parseNode parseNodeAmended stringsSplitColon
  cases h : pastColon v.data with
  | none =>
    rw [splitOnColon_of_pastColon_none _ h, beforeColon_of_pastColon_none _ h]
    simp
    decide
  | some m =>
    rw [splitOnColon_of_pastColon_some _ _ h]
    obtain ⟨a, t, ha⟩ : ∃ a t, splitOnColon m = a :: t := by
      cases hm : splitOnColon m with
      | nil => exact absurd hm (splitOnColon_ne_nil m)
      | cons a t => exact ⟨a, t, rfl⟩
    have haval : a = beforeColon m := by
      have hh := headD_splitOnColon m
      rw [ha, List.headD_cons] at hh
      exact hh
    rw [ha, haval]
    simp [show ¬ (t.length + 1 + 1 < 2) by omega]

/-- C5: when the cache is empty and the seed probe fails, GetClusterConfig
returns the probe's failure, probes nothing else, and leaves the global
state exactly as it was, so a later call with a reachable seed still
performs a full discovery. -/
theorem C5_seed_probe_failure_publishes_nothing
    (probe : String → Except String JSONRingType) (st : ClusterState)
    (hostport e : String)
    (h0 : st.Cluster = none) (h : probe hostport = Except.error e) :
    GetClusterConfig probe st hostport = (st, GoResult.err e, [hostport]) := by
  simp [GetClusterConfig, h0, h]

/-- C5 witness: a failed seed probe at a:2000 returns the connection error
and an unchanged empty cache, and the subsequent call on that same state
with a working prober performs discovery and publishes a config. -/
theorem C5_witness :
    GetClusterConfig probeDown { Cluster := none, HostPort := "a:2000" } "a:2000" =
      ({ Cluster := none, HostPort := "a:2000" }, GoResult.err "connection refused",
       ["a:2000"]) ∧
    (GetClusterConfig probeCarbon3 { Cluster := none, HostPort := "a:2000" } "a:2000").2.1 =
      GoResult.ok { Port := "2000", Servers := ["a", "b", "c"],
                    Hash := some carbonHash3, Healthy := false } :=
  ⟨C5_seed_probe_failure_publishes_nothing probeDown
      { Cluster := none, HostPort := "a:2000" } "a:2000" "connection refused" rfl rfl,
   by decide⟩

/-- C6: if a call to GetClusterConfig returns a config successfully, then
any subsequent call — with any prober and any argument — returns that same
config unchanged, performs no probing at all, and leaves the state alone:
the cached-object check is the only memoization point. -/
theorem C6_successful_call_memoizes
    (probe probe2 : String → Except String JSONRingType)
    (st st1 : ClusterState) (hostport hostport2 : String)
    (cfg : ClusterConfig) (log : List String)
    (h : GetClusterConfig probe st hostport = (st1, GoResult.ok cfg, log)) :
    GetClusterConfig probe2 st1 hostport2 = (st1, GoResult.ok cfg, []) := by
  have h1 : st1.Cluster = some cfg := by
    cases hc : st.Cluster with
    | some c =>
      simp only [GetClusterConfig, hc, Prod.mk.injEq, GoResult.ok.injEq] at h
      obtain ⟨rfl, rfl, -⟩ := h
      exact hc
    | none =>
      simp only [GetClusterConfig, hc] at h
      cases hp : probe hostport with
      | error e => simp [hp] at h
      | ok master =>
        simp only [hp] at h
        cases hs : splitHostPort st.HostPort with
        | error e => simp [hs] at h
        | ok sp =>
          obtain ⟨server, port⟩ := sp
          simp only [hs] at h
          cases hb : buildHash master.Algo master.Replicas with
          | none => simp [hb] at h
          | some hash0 =>
            simp only [hb] at h
            split at h
            · simp at h
            · simp only [Prod.mk.injEq, GoResult.ok.injEq] at h
              obtain ⟨rfl, rfl, -⟩ := h
              simp
  simp [GetClusterConfig, h1]

/-- C6 witness: after the successful discovery run seeded at s:2000, a
second call with an unreachable prober and a different argument returns the
identical cached config and probes nothing. -/
theorem C6_witness :
    GetClusterConfig probeDown
        { Cluster := some cfgHealthy3, HostPort := "s:2000" } "z:9" =
      ({ Cluster := some cfgHealthy3, HostPort := "s:2000" },
       GoResult.ok cfgHealthy3, []) :=
  C6_successful_call_memoizes probeCarbon3 probeDown
    { Cluster := none, HostPort := "s:2000" }
    { Cluster := some cfgHealthy3, HostPort := "s:2000" }
    "s:2000" "z:9" cfgHealthy3 ["s:2000", "a:2000", "b:2000", "c:2000"] (by decide)

/-- If some present member of the ring list disagrees with the master at a
position (while matching its algorithm and node count) and no member is a
nil snapshot, the peer loop reports unhealthy. -/
theorem isHealthyLoop_eq_false_of_mismatch (master v : JSONRingType) (j : Nat)
    (halgo : v.Algo = master.Algo)
    (hlen : v.Nodes.length = master.Nodes.length)
    (hj : j < v.Nodes.length)
    (hne : v.Nodes.getD j "" ≠ master.Nodes.getD j "") :
    ∀ ring : List (Option JSONRingType), (∀ x ∈ ring, x ≠ none) → some v ∈ ring →
      isHealthyLoop master ring = some false := by
  intro ring
  induction ring with
  | nil => intro _ hv; cases hv
  | cons x ws ih =>
    intro hpresent hv
    cases x with
    | none => exact absurd rfl (hpresent none (List.mem_cons_self none ws))
    | some w =>
      rcases List.mem_cons.mp hv with hvw | hmem
      · obtain rfl : v = w := Option.some.inj hvw
        have hdiff : nodesDiffer v.Nodes master.Nodes = true := by
          unfold nodesDiffer
          rw [List.any_eq_true]
          exact ⟨j, List.mem_range.mpr hj, by simpa using hne⟩
        simp [isHealthyLoop, halgo, hlen, hdiff]
      · simp only [isHealthyLoop]
        split
        · rfl
        · split
          · rfl
          · split
            · rfl
            · exact ih (fun x hx => hpresent x (List.mem_cons_of_mem _ hx)) hmem

/-- C7: for any reference snapshot and any ring of collected snapshots none
of which is nil, if some member matches the reference's algorithm and node
count but its node list disagrees at some index, then isHealthy reports
unhealthy: node lists are compared element-by-element by position, so peers
agreeing on membership but not on order are judged unhealthy. -/
theorem C7_positional_mismatch_unhealthy (master v : JSONRingType)
    (ring : List (Option JSONRingType)) (j : Nat)
    (hpresent : ∀ x ∈ ring, x ≠ none) (hv : some v ∈ ring)
    (halgo : v.Algo = master.Algo)
    (hlen : v.Nodes.length = master.Nodes.length)
    (hj : j < v.Nodes.length)
    (hne : v.Nodes.getD j "" ≠ master.Nodes.getD j "") :
    isHealthy master ring = some false := by
  unfold isHealthy
  split
  · rfl
  · exact isHealthyLoop_eq_false_of_mismatch master v j halgo hlen hj hne ring hpresent hv

/-- C7 witness: the two-node master against the swapped-order peer (same
members, same algorithm, same count) is judged unhealthy. -/
theorem C7_witness :
    isHealthy snapCarbon2 [some snapSwapped2, some snapCarbon2] = some false :=
  C7_positional_mismatch_unhealthy snapCarbon2 snapSwapped2
    [some snapSwapped2, some snapCarbon2] 0 (by decide) (by decide)
    (by decide) (by decide) (by decide) (by decide)

theorem stripReplicas_Algo (r : JSONRingType) : (stripReplicas r).Algo = r.Algo := rfl

theorem stripReplicas_Nodes (r : JSONRingType) : (stripReplicas r).Nodes = r.Nodes := rfl

theorem isHealthyLoop_stripReplicas (master : JSONRingType)
    (ring : List (Option JSONRingType)) :
    isHealthyLoop (stripReplicas master) (ring.map (Option.map stripReplicas)) =
      isHealthyLoop master ring := by
  induction ring with
  | nil => rfl
  | cons x ws ih =>
    cases x with
    | none => rfl
    | some w =>
      simp only [List.map_cons, Option.map_some', isHealthyLoop, stripReplicas_Algo,
        stripReplicas_Nodes, ih]

theorem isHealthy_stripReplicas (master : JSONRingType)
    (ring : List (Option JSONRingType)) :
    isHealthy (stripReplicas master) (ring.map (Option.map stripReplicas)) =
      isHealthy master ring := by
  unfold isHealthy
  rw [isHealthyLoop_stripReplicas]
  simp [stripReplicas_Nodes]

/-- C8: the verdict of isHealthy never depends on any snapshot's replica
count: two inputs that agree on everything except the Replicas fields of
the master and of any ring members produce the same result. -/
theorem C8_replicas_do_not_affect_verdict (master master2 : JSONRingType)
    (ring ring2 : List (Option JSONRingType))
    (hm : stripReplicas master = stripReplicas master2)
    (hr : ring.map (Option.map stripReplicas) = ring2.map (Option.map stripReplicas)) :
    isHealthy master ring = isHealthy master2 ring2 := by
  rw [← isHealthy_stripReplicas master ring, ← isHealthy_stripReplicas master2 ring2, hm, hr]

/-- C8 witness: changing every replica count (master 0 to 7, peers 0 to 3
and 5) leaves the verdict unchanged. -/
theorem C8_witness :
    isHealthy snapCarbon2 [some snapSwapped2, some snapCarbon2] =
      isHealthy { Algo := "carbon", Replicas := 7, Nodes := ["a:0", "b:0"] }
        [some { Algo := "carbon", Replicas := 3, Nodes := ["b:0", "a:0"] },
         some { Algo := "carbon", Replicas := 5, Nodes := ["a:0", "b:0"] }] :=
  C8_replicas_do_not_affect_verdict snapCarbon2
    { Algo := "carbon", Replicas := 7, Nodes := ["a:0", "b:0"] }
    [some snapSwapped2, some snapCarbon2]
    [some { Algo := "carbon", Replicas := 3, Nodes := ["b:0", "a:0"] },
     some { Algo := "carbon", Replicas := 5, Nodes := ["a:0", "b:0"] }]
    (by decide) (by decide)

/-- C3 counterexample: with the seed a:2000 being node a itself, all three
daemons report the identical carbon snapshot and every probe succeeds, yet
the published config has Healthy = false, because isHealthy compares the
node count (3) against the number of collected peer snapshots (2, the seed
being skipped); likewise two peers that each pass the algorithm, node-count
and node-order checks still yield an unhealthy verdict against the
three-node master. -/
theorem C3_counterexample_seed_skip :
    (GetClusterConfig probeCarbon3 { Cluster := none, HostPort := "a:2000" } "a:2000").2.1 =
      GoResult.ok { Port := "2000", Servers := ["a", "b", "c"],
                    Hash := some carbonHash3, Healthy := false } ∧
    isHealthy snapCarbon3 [some snapCarbon3, some snapCarbon3] = some false := by
  decide

/-- If every member of a list of present peer snapshots passes the
algorithm, node-count and node-order checks against the master, the peer
loop reports healthy. -/
theorem isHealthyLoop_eq_true_of_all_pass (master : JSONRingType) :
    ∀ peers : List JSONRingType,
      (∀ v ∈ peers, v.Algo = master.Algo ∧ v.Nodes.length = master.Nodes.length ∧
        nodesDiffer v.Nodes master.Nodes = false) →
      isHealthyLoop master (peers.map some) = some true := by
  intro peers
  induction peers with
  | nil => intro _; rfl
  | cons w ws ih =>
    intro hpass
    obtain ⟨ha, hl, hd⟩ := hpass w (List.mem_cons_self w ws)
    have hrest := ih fun v hv => hpass v (List.mem_cons_of_mem _ hv)
    simp [isHealthyLoop, ha, hl, hd, hrest]

/-- C3 (amended): when every collected peer snapshot is present and passes
the algorithm, node-count and node-order checks against the reference, and
additionally the number of collected peer snapshots equals the reference's
node count, isHealthy returns true; the concrete convergence scenario
(seed plus the three nodes a, b, c all reporting the identical carbon
snapshot) therefore publishes healthy = true and servers = [a, b, c]
provided the seed's own parsed hostname is not among the nodes, so that all
three nodes are probed as peers. -/
theorem C3_all_checks_pass_healthy (master : JSONRingType)
    (peers : List JSONRingType)
    (hcount : peers.length = master.Nodes.length)
    (hpass : ∀ v ∈ peers, v.Algo = master.Algo ∧
      v.Nodes.length = master.Nodes.length ∧
      nodesDiffer v.Nodes master.Nodes = false) :
    isHealthy master (peers.map some) = some true := by
  unfold isHealthy
  rw [if_neg (by simp [hcount])]
  exact isHealthyLoop_eq_true_of_all_pass master peers hpass

/-- C3 witness: three identical carbon peers match the three-node master
(healthy), and the full discovery run seeded at s:2000 — a host outside the
node list, so that a, b and c are all probed — publishes the healthy config
with servers [a, b, c]. -/
theorem C3_witness :
    isHealthy snapCarbon3 ([snapCarbon3, snapCarbon3, snapCarbon3].map some) = some true ∧
    GetClusterConfig probeCarbon3 { Cluster := none, HostPort := "s:2000" } "s:2000" =
      ({ Cluster := some cfgHealthy3, HostPort := "s:2000" },
       GoResult.ok cfgHealthy3, ["s:2000", "a:2000", "b:2000", "c:2000"]) :=
  ⟨C3_all_checks_pass_healthy snapCarbon3 [snapCarbon3, snapCarbon3, snapCarbon3]
      (by decide) (by decide),
   by decide⟩

end Buckytools
